import Mathlib

/-!
Shallow embedding of the Intercom connector
(src/backend/onyx/connectors/intercom/connector.py) and proofs about its
checkpointed incremental-fetch protocol, document normalization, and
credential handling.

Python dictionaries coming from the remote API are embedded as typed
structures; Python runtime values that may be None, a string, a number or a
list (credential entries, metadata values) are embedded as the inductive
type PyVal with Python truthiness.  Raised exceptions are embedded as
Except values.  The paginated HTTP listing is embedded as the finite list
of page responses the provider returns in order.
-/

/-- Embedding of the Python values that flow through credential mappings and
document metadata: None, str, int, and list-of-str. -/
inductive PyVal where
  | none
  | str (s : String)
  | int (n : Int)
  | list (l : List String)
deriving DecidableEq, Repr

/-- Python truthiness for the embedded values: None, empty string, zero and
the empty list are falsy. -/
def truthy : PyVal → Bool
  | PyVal.none => false
  | PyVal.str s => s != ""
  | PyVal.int n => n != 0
  | PyVal.list l => !l.isEmpty

/-- Embedding of the Python isinstance check against str. -/
def is_str : PyVal → Bool
  | PyVal.str _ => true
  | _ => false

/-- The underlying string of a PyVal known to be a str (empty otherwise). -/
def as_str : PyVal → String
  | PyVal.str s => s
  | _ => ""

/-- Rendering of a PyVal inside an f-string, as Python str() would. -/
def py_str : PyVal → String
  | PyVal.none => "None"
  | PyVal.str s => s
  | PyVal.int n => toString n
  | PyVal.list l => toString l

/-- Embedding of the Python dict.get method on a credentials mapping:
returns None when the key is absent. -/
def dict_get (d : List (String × PyVal)) (k : String) : PyVal :=
  match d.lookup k with
  | Option.some v => v
  | Option.none => PyVal.none

/-- Embedding of the exceptions the connector raises:
ConnectorMissingCredentialError (with its message) and NotImplementedError. -/
inductive PyError where
  | connectorMissingCredential (msg : String)
  | notImplemented
deriving DecidableEq, Repr

/-- Modelled from the spec: INDEX_BATCH_SIZE, the configured batch bound
imported from onyx.configs.app_configs (repository code not under src/);
the spec only requires a configured maximum batch size. -/
def INDEX_BATCH_SIZE : Nat := 16

/-- Modelled from the spec: the source-specific document id namespace prefix
(a module-level constant of the repository not under src/); the claims do not
depend on its exact value. -/
def INTERCOM_ID_PREFIX : String := "INTERCOM_"

/-- Modelled from the spec: the link template head for the Intercom web app
(a module-level constant of the repository not under src/); the claims do not
depend on its exact value. -/
def APP_URL_PREFIX : String := "https://app.intercom.com/a/apps/"

/-- Modelled from the spec: parse_html_page_basic, the HTML-to-text cleaning
step (repository code not under src/, treated by the spec as an external
collaborator); modelled as dropping everything between angle brackets.  The
claims depend only on the cleaned text possibly being empty. -/
def strip_tags : List Char → Bool → List Char
  | [], _ => []
  | c :: cs, inTag =>
    if inTag then
      if c = '>' then strip_tags cs false else strip_tags cs true
    else
      if c = '<' then strip_tags cs true else c :: strip_tags cs false

/-- Modelled from the spec: see strip_tags. -/
def parse_html_page_basic (s : String) : String :=
  String.mk (strip_tags s.data false)

/-- Rendering of an epoch timestamp by the external datetime library
(datetime.fromtimestamp(...).isoformat()); modelled as decimal rendering,
since the claims depend only on the result being a string. -/
def isoformat (t : Int) : String :=
  toString t

/-- Embedding of the author object nested in a conversation source. -/
structure Author where
  name : Option String
  email : Option String
deriving DecidableEq, Repr

/-- Embedding of the source object of a conversation: its type, initial
message body, and author.  An absent author embeds as Option.none, matching
the falsy empty dict produced by source.get with an empty-dict default. -/
structure IntercomSource where
  type : Option String
  body : Option String
  author : Option Author
deriving DecidableEq, Repr

/-- Embedding of one follow-up conversation part (only its body is read). -/
structure ConversationPart where
  body : Option String
deriving DecidableEq, Repr

/-- Embedding of one tag object (only its name is read). -/
structure Tag where
  name : String
deriving DecidableEq, Repr

/-- Embedding of a raw Intercom conversation record, with exactly the fields
the connector reads.  Fields accessed with brackets in the source (id,
created_at, updated_at) are required; fields accessed with .get are Option. -/
structure Ticket where
  id : String
  title : Option String
  state : Option String
  admin_assignee_id : Option Int
  team_assignee_id : Option Int
  tags : List Tag
  priority : Option String
  created_at : Int
  updated_at : Int
  source : IntercomSource
  conversation_parts : List ConversationPart
deriving DecidableEq, Repr

/-- Embedding of onyx.connectors.models.TextSection (repository code not
under src/): one text section of a document. -/
structure TextSection where
  text : String
deriving DecidableEq, Repr

/-- Embedding of onyx.connectors.models.BasicExpertInfo (repository code not
under src/): a document owner entry. -/
structure BasicExpertInfo where
  display_name : Option String
  email : Option String
deriving DecidableEq, Repr

/-- Embedding of the DocumentSource enum member used by this connector. -/
inductive DocumentSource where
  | INTERCOM
deriving DecidableEq, Repr

/-- Embedding of onyx.connectors.models.Document (repository code not under
src/), with the fields this connector populates.  doc_updated_at keeps the
raw epoch seconds; metadata is the ordered key-value mapping. -/
structure Document where
  id : String
  source : DocumentSource
  semantic_identifier : String
  link : Option String
  doc_updated_at : Int
  primary_owners : List BasicExpertInfo
  sections : List TextSection
  external_access : Option Unit
  metadata : List (String × PyVal)
deriving DecidableEq, Repr

/-- Embedding of one page response of the conversations listing: the
conversations array, and the pages.next.starting_after token when the
response carries a next page object containing that key. -/
structure Page where
  conversations : List Ticket
  next_cursor : Option String
deriving DecidableEq, Repr

/-- Embedding of IntercomConnectorCheckpoint (has_more inherited from
ConnectorCheckpoint, plus the tickets_cursor resume token). -/
structure IntercomConnectorCheckpoint where
  has_more : Bool
  tickets_cursor : Option String
deriving DecidableEq, Repr

/-- Embedding of the IntercomConnector instance state set up by its
constructor and mutated by load_credentials. -/
structure IntercomConnector where
  batch_size : Nat
  intercom_api_token : Option String
  workspace_id : PyVal
deriving DecidableEq, Repr

/-- Embedding of the IntercomConnector constructor. -/
def IntercomConnector.init (batch_size : Nat) (workspace_id : Option String) :
    IntercomConnector :=
  { batch_size := batch_size,
    intercom_api_token := Option.none,
    workspace_id := match workspace_id with
      | Option.some s => PyVal.str s
      | Option.none => PyVal.none }

/-- Embedding of IntercomConnector.load_credentials.  The returned connector
is the receiver state at return or at the raise point (assignments made
before a raise are kept, as in the Python source); the Except component is
the raised exception, if any. -/
def IntercomConnector.load_credentials (conn : IntercomConnector)
    (credentials : List (String × PyVal)) : IntercomConnector × Except PyError Unit :=
  let intercom_api_token := dict_get credentials "intercom_api_token"
  if !truthy intercom_api_token || !is_str intercom_api_token then
    (conn, Except.error (PyError.connectorMissingCredential
      "Missing or invalid intercom_api_token for Intercom connector."))
  else
    let conn := { conn with intercom_api_token := Option.some (as_str intercom_api_token) }
    let conn := { conn with workspace_id := dict_get credentials "workspace_id" }
    if !truthy conn.workspace_id then
      (conn, Except.error (PyError.connectorMissingCredential
        "Missing or invalid workspace_id for Intercom connector."))
    else
      (conn, Except.ok ())

/-- Embedding of IntercomConnector.get_source_link: None when the workspace
identifier is falsy, otherwise the link built from the id with the document
id namespace stripped. -/
def IntercomConnector.get_source_link (conn : IntercomConnector) (doc_id : String) :
    Option String :=
  if !truthy conn.workspace_id then
    Option.none
  else
    let conversation_id := doc_id.replace INTERCOM_ID_PREFIX ""
    Option.some (APP_URL_PREFIX ++ py_str conn.workspace_id ++ "/conversations/" ++ conversation_id)

/-- Embedding of the repeated section-building pattern of
_ticket_to_document: append a section when the body is truthy and the
cleaned text is truthy, otherwise leave the list unchanged. -/
def append_section (sections : List TextSection) (body : Option String) : List TextSection :=
  match body with
  | Option.some b =>
    if b != "" then
      let cleaned_text := parse_html_page_basic b
      if cleaned_text != "" then sections ++ [{ text := cleaned_text }] else sections
    else
      sections
  | Option.none => sections

/-- Embedding of the Python str() stringification of an optional numeric
identifier performed by _ticket_to_document, keeping None as None. -/
def stringify_id : Option Int → PyVal
  | Option.some n => PyVal.str (toString n)
  | Option.none => PyVal.none

/-- Embedding of an Option String metadata value (None stays None). -/
def opt_str : Option String → PyVal
  | Option.some s => PyVal.str s
  | Option.none => PyVal.none

/-- Embedding of IntercomConnector._ticket_to_document. -/
def IntercomConnector.ticket_to_document (conn : IntercomConnector) (ticket : Ticket) :
    Document :=
  let source := ticket.source
  let author := source.author
  let primary_owners : List BasicExpertInfo :=
    match author with
    | Option.some a =>
      match a.email with
      | Option.some e =>
        if e != "" then [{ display_name := a.name, email := a.email }] else []
      | Option.none => []
    | Option.none => []
  let sections : List TextSection := append_section [] source.body
  let sections :=
    ticket.conversation_parts.foldl (fun secs part => append_section secs part.body) sections
  let metadata : List (String × PyVal) :=
    [("created_at", PyVal.str (isoformat ticket.created_at)),
     ("state", opt_str ticket.state),
     ("assignee_id", stringify_id ticket.admin_assignee_id),
     ("team_assignee_id", stringify_id ticket.team_assignee_id),
     ("tags", PyVal.list (ticket.tags.map (fun tag => tag.name))),
     ("priority", PyVal.str (match ticket.priority with
       | Option.some p => p
       | Option.none => "not_prioritized")),
     ("source_type", opt_str source.type)]
  { id := INTERCOM_ID_PREFIX ++ ticket.id,
    source := DocumentSource.INTERCOM,
    semantic_identifier := (match ticket.title with
      | Option.some t => if t != "" then t else "Conversation " ++ ticket.id
      | Option.none => "Conversation " ++ ticket.id),
    link := conn.get_source_link ticket.id,
    doc_updated_at := ticket.updated_at,
    primary_owners := primary_owners,
    sections := sections,
    external_access := Option.none,
    metadata := metadata.filter (fun kv => !(kv.2 == PyVal.none) && !(kv.2 == PyVal.list [])) }

/-- Embedding of the token truthiness check at the top of
IntercomConnector._get_tickets. -/
def token_truthy (conn : IntercomConnector) : Bool :=
  match conn.intercom_api_token with
  | Option.some s => s != ""
  | Option.none => false

/-- Embedding of IntercomConnector._get_tickets against an abstract page
provider: raises before consulting the provider when the token is not
loaded, otherwise returns the provider response for the cursor. -/
def get_tickets (conn : IntercomConnector) (provider : Option String → Page)
    (starting_after : Option String) : Except PyError Page :=
  if token_truthy conn then
    Except.ok (provider starting_after)
  else
    Except.error (PyError.connectorMissingCredential "Intercom API token is not loaded.")

/-- Embedding of the item-level filter of _fetch_tickets: an item is kept
unless a start time is set and its update time is strictly before it. -/
def keep_ticket (start_time : Option Int) (ticket : Ticket) : Bool :=
  match start_time with
  | Option.some s => decide (¬ ticket.updated_at < s)
  | Option.none => true

/-- Embedding of the inner for-loop of _fetch_tickets over one page:
filters by the start time, appends transformed documents to the current
batch, and flushes the batch whenever it reaches batch_size.  Returns the
batches yielded so far and the current (unflushed) batch. -/
def process_page_tickets (conn : IntercomConnector) (start_time : Option Int) :
    List Ticket → List (List Document) → List Document →
    List (List Document) × List Document
  | [], yielded, doc_batch => (yielded, doc_batch)
  | ticket :: rest, yielded, doc_batch =>
    if keep_ticket start_time ticket then
      let doc_batch := doc_batch ++ [conn.ticket_to_document ticket]
      if conn.batch_size ≤ doc_batch.length then
        process_page_tickets conn start_time rest (yielded ++ [doc_batch]) []
      else
        process_page_tickets conn start_time rest yielded doc_batch
    else
      process_page_tickets conn start_time rest yielded doc_batch

/-- Embedding of the while-loop of _fetch_tickets.  The pages argument is
the finite sequence of responses the provider returns in order; each
iteration re-checks the token (as _get_tickets does), processes the page,
then either advances both the local cursor and the checkpoint cursor to the
next-cursor token, or exits and flushes the final partial batch.  Returns
the yielded batches, the final checkpoint cursor, and the raised exception
if any (an exception inside the generator does not flush the batch). -/
def fetch_tickets_loop (conn : IntercomConnector) (start_time : Option Int) :
    List Page → Option String → Option String → List (List Document) → List Document →
    List (List Document) × Option String × Except PyError Unit
  | pages, starting_after, tickets_cursor, yielded, doc_batch =>
    if token_truthy conn then
      match pages with
      | [] => (yielded, tickets_cursor, Except.ok ())
      | page :: rest =>
        let processed := process_page_tickets conn start_time page.conversations yielded doc_batch
        match page.next_cursor with
        | Option.some c =>
          fetch_tickets_loop conn start_time rest (Option.some c) (Option.some c)
            processed.1 processed.2
        | Option.none =>
          ((if processed.2.isEmpty then processed.1 else processed.1 ++ [processed.2]),
            tickets_cursor, Except.ok ())
    else
      (yielded, tickets_cursor,
        Except.error (PyError.connectorMissingCredential "Intercom API token is not loaded."))

/-- Embedding of IntercomConnector._fetch_tickets: runs the loop from the
checkpoint cursor with an empty batch and returns the yielded batches, the
checkpoint (with its mutated tickets_cursor), and the exception if any. -/
def fetch_tickets (conn : IntercomConnector) (checkpoint : IntercomConnectorCheckpoint)
    (start_time : Option Int) (pages : List Page) :
    List (List Document) × IntercomConnectorCheckpoint × Except PyError Unit :=
  let r := fetch_tickets_loop conn start_time pages
    checkpoint.tickets_cursor checkpoint.tickets_cursor [] []
  (r.1, { checkpoint with tickets_cursor := r.2.1 }, r.2.2)

/-- Embedding of the FIRST textual definition of load_from_checkpoint in the
source file (converting start to a datetime, delegating to _fetch_tickets,
and returning the checkpoint).  Under Python semantics this definition is
shadowed by the later one and is dead code. -/
def load_from_checkpoint_first_def (conn : IntercomConnector) (start : Int) (end_ : Int)
    (checkpoint : IntercomConnectorCheckpoint) (pages : List Page) :
    List (List Document) × IntercomConnectorCheckpoint × Except PyError Unit :=
  fetch_tickets conn checkpoint (Option.some start) pages

/-- Embedding of the EFFECTIVE load_from_checkpoint: the source file defines
the method twice and the second definition, which raises NotImplementedError
unconditionally, overrides the first under Python class-body semantics. -/
def IntercomConnector.load_from_checkpoint (conn : IntercomConnector) (start : Int)
    (end_ : Int) (checkpoint : IntercomConnectorCheckpoint) :
    Except PyError (List (List Document) × IntercomConnectorCheckpoint) :=
  Except.error PyError.notImplemented

/-- Embedding of load_from_checkpoint_with_perm_sync, which delegates to the
effective load_from_checkpoint. -/
def IntercomConnector.load_from_checkpoint_with_perm_sync (conn : IntercomConnector)
    (start : Int) (end_ : Int) (checkpoint : IntercomConnectorCheckpoint) :
    Except PyError (List (List Document) × IntercomConnectorCheckpoint) :=
  conn.load_from_checkpoint start end_ checkpoint

/-- Embedding of a slim document (only an id). -/
structure SlimDocument where
  id : String
deriving DecidableEq, Repr

/-- Embedding of the heartbeat callback interface (never consulted). -/
structure IndexingHeartbeatInterface where
  tick : Unit
deriving DecidableEq, Repr

/-- Embedding of IntercomConnector.retrieve_all_slim_docs_perm_sync, whose
body is a yield from the empty sequence. -/
def retrieve_all_slim_docs_perm_sync (conn : IntercomConnector)
    (start : Option Int) (end_ : Option Int)
    (callback : Option IndexingHeartbeatInterface) : List SlimDocument :=
  []

/-- Embedding of IntercomConnector.build_dummy_checkpoint. -/
def build_dummy_checkpoint (conn : IntercomConnector) : IntercomConnectorCheckpoint :=
  { has_more := true, tickets_cursor := Option.none }

/-- The checkpoint-cursor update a single page response induces: the
next-cursor token when present, the previous value otherwise. -/
def update_cursor (cur : Option String) (page : Page) : Option String :=
  match page.next_cursor with
  | Option.some c => Option.some c
  | Option.none => cur

/-- A page sequence that terminates in a page with no next-cursor: nonempty,
every page before the last carries a next-cursor, and the last does not. -/
def terminates_on_last : List Page → Bool
  | [] => false
  | page :: rest =>
    match rest with
    | [] => page.next_cursor.isNone
    | _ :: _ => page.next_cursor.isSome && terminates_on_last rest

/-- The declarative form of the section built from one optional message
body, used to state the order-and-filtering property of the sections list. -/
def section_of_body (body : Option String) : Option TextSection :=
  match body with
  | Option.some b =>
    if b != "" then
      let cleaned_text := parse_html_page_basic b
      if cleaned_text != "" then Option.some { text := cleaned_text } else Option.none
    else
      Option.none
  | Option.none => Option.none

/-! ## Lemmas about the inner page loop -/

theorem process_page_tickets_flatten (conn : IntercomConnector) (start_time : Option Int)
    (ts : List Ticket) :
    ∀ (yielded : List (List Document)) (doc_batch : List Document),
      ((process_page_tickets conn start_time ts yielded doc_batch).1).flatten
          ++ (process_page_tickets conn start_time ts yielded doc_batch).2
        = yielded.flatten ++ doc_batch
            ++ (ts.filter (keep_ticket start_time)).map conn.ticket_to_document := by
  induction ts with
  | nil =>
    intro yielded doc_batch
    simp [process_page_tickets]
  | cons t rest ih =>
    intro yielded doc_batch
    by_cases hk : keep_ticket start_time t
    · by_cases hlen :
        conn.batch_size ≤ (doc_batch ++ [conn.ticket_to_document t]).length
      · simp only [process_page_tickets, hk, if_true, hlen, ih,
          List.filter_cons, List.map_cons, List.flatten_append,
          List.flatten_cons, List.flatten_nil, List.append_nil, List.append_assoc,
          List.cons_append, List.nil_append]
      · simp only [process_page_tickets, hk, if_true, hlen, if_false, ih,
          List.filter_cons, List.map_cons, List.append_assoc,
          List.cons_append, List.nil_append, List.singleton_append]
    · have hk' : keep_ticket start_time t = false := by
        cases h : keep_ticket start_time t
        · rfl
        · exact absurd h hk
      simp only [process_page_tickets, hk', Bool.false_eq_true, if_false, ih,
        List.filter_cons]

theorem process_page_tickets_shape (conn : IntercomConnector) (start_time : Option Int)
    (hbs : 0 < conn.batch_size) (ts : List Ticket) :
    ∀ (yielded : List (List Document)) (doc_batch : List Document),
      (∀ b ∈ yielded, b ≠ [] ∧ b.length ≤ conn.batch_size) →
      doc_batch.length < conn.batch_size →
      (∀ b ∈ (process_page_tickets conn start_time ts yielded doc_batch).1,
          b ≠ [] ∧ b.length ≤ conn.batch_size)
        ∧ (process_page_tickets conn start_time ts yielded doc_batch).2.length
            < conn.batch_size := by
  induction ts with
  | nil =>
    intro yielded doc_batch hy hb
    simpa [process_page_tickets] using And.intro hy hb
  | cons t rest ih =>
    intro yielded doc_batch hy hb
    by_cases hk : keep_ticket start_time t
    · by_cases hlen :
        conn.batch_size ≤ (doc_batch ++ [conn.ticket_to_document t]).length
      · simp only [process_page_tickets, hk, if_true, hlen]
        refine ih _ _ ?_ hbs
        intro b hbmem
        rcases List.mem_append.mp hbmem with hmem | hmem
        · exact hy b hmem
        · have hbq : b = doc_batch ++ [conn.ticket_to_document t] := by
            simpa using hmem
          subst hbq
          constructor
          · simp
          · have : doc_batch.length + 1 ≤ conn.batch_size := Nat.succ_le_of_lt hb
            simpa using this
      · simp only [process_page_tickets, hk, if_true, hlen, if_false]
        refine ih _ _ hy ?_
        exact Nat.lt_of_not_le hlen
    · have hk' : keep_ticket start_time t = false := by
        cases h : keep_ticket start_time t
        · rfl
        · exact absurd h hk
      simp only [process_page_tickets, hk', Bool.false_eq_true, if_false]
      exact ih _ _ hy hb

theorem process_page_tickets_filter (conn : IntercomConnector) (start_time : Option Int)
    (ts : List Ticket) :
    ∀ (yielded : List (List Document)) (doc_batch : List Document),
      process_page_tickets conn start_time (ts.filter (keep_ticket start_time)) yielded doc_batch
        = process_page_tickets conn start_time ts yielded doc_batch := by
  induction ts with
  | nil =>
    intro yielded doc_batch
    simp
  | cons t rest ih =>
    intro yielded doc_batch
    by_cases hk : keep_ticket start_time t
    · rw [List.filter_cons]
      simp only [hk, if_true]
      simp only [process_page_tickets, hk, if_true]
      by_cases hlen :
        conn.batch_size ≤ (doc_batch ++ [conn.ticket_to_document t]).length
      · simp only [hlen, if_true, ih]
      · simp only [hlen, if_false, ih]
    · have hk' : keep_ticket start_time t = false := by
        cases h : keep_ticket start_time t
        · rfl
        · exact absurd h hk
      rw [List.filter_cons]
      simp only [hk', Bool.false_eq_true, if_false]
      simp only [process_page_tickets, hk', Bool.false_eq_true, if_false, ih]

/-! ## Lemmas about the pagination loop -/

theorem fetch_tickets_loop_step_some (conn : IntercomConnector) (start_time : Option Int)
    (htok : token_truthy conn = true) (page : Page) (rest : List Page) (c : String)
    (hc : page.next_cursor = Option.some c) (starting_after tickets_cursor : Option String)
    (yielded : List (List Document)) (doc_batch : List Document) :
    fetch_tickets_loop conn start_time (page :: rest) starting_after tickets_cursor
        yielded doc_batch
      = fetch_tickets_loop conn start_time rest (Option.some c) (Option.some c)
          (process_page_tickets conn start_time page.conversations yielded doc_batch).1
          (process_page_tickets conn start_time page.conversations yielded doc_batch).2 := by
  conv_lhs => rw [fetch_tickets_loop.eq_def]
  simp [htok, hc]

theorem fetch_tickets_loop_step_none (conn : IntercomConnector) (start_time : Option Int)
    (htok : token_truthy conn = true) (page : Page) (rest : List Page)
    (hc : page.next_cursor = Option.none) (starting_after tickets_cursor : Option String)
    (yielded : List (List Document)) (doc_batch : List Document) :
    fetch_tickets_loop conn start_time (page :: rest) starting_after tickets_cursor
        yielded doc_batch
      = ((if (process_page_tickets conn start_time page.conversations yielded doc_batch).2.isEmpty
            then (process_page_tickets conn start_time page.conversations yielded doc_batch).1
            else (process_page_tickets conn start_time page.conversations yielded doc_batch).1
              ++ [(process_page_tickets conn start_time page.conversations yielded doc_batch).2]),
          tickets_cursor, Except.ok ()) := by
  conv_lhs => rw [fetch_tickets_loop.eq_def]
  simp [htok, hc]

theorem fetch_tickets_loop_no_token (conn : IntercomConnector) (start_time : Option Int)
    (htok : token_truthy conn = false) (pages : List Page)
    (starting_after tickets_cursor : Option String)
    (yielded : List (List Document)) (doc_batch : List Document) :
    fetch_tickets_loop conn start_time pages starting_after tickets_cursor yielded doc_batch
      = (yielded, tickets_cursor,
          Except.error (PyError.connectorMissingCredential
            "Intercom API token is not loaded.")) := by
  rw [fetch_tickets_loop.eq_def]
  simp [htok]

theorem fetch_tickets_loop_flatten (conn : IntercomConnector) (start_time : Option Int)
    (htok : token_truthy conn = true) (pages : List Page) :
    ∀ (starting_after tickets_cursor : Option String)
      (yielded : List (List Document)) (doc_batch : List Document),
      terminates_on_last pages = true →
      ((fetch_tickets_loop conn start_time pages starting_after tickets_cursor
            yielded doc_batch).1).flatten
          = yielded.flatten ++ doc_batch
              ++ (((pages.map Page.conversations).flatten).filter
                    (keep_ticket start_time)).map conn.ticket_to_document
        ∧ (fetch_tickets_loop conn start_time pages starting_after tickets_cursor
            yielded doc_batch).2.2 = Except.ok () := by
  induction pages with
  | nil =>
    intro sa cur yielded doc_batch hterm
    simp [terminates_on_last] at hterm
  | cons page rest ih =>
    intro sa cur yielded doc_batch hterm
    have hpp := process_page_tickets_flatten conn start_time page.conversations
      yielded doc_batch
    cases rest with
    | nil =>
      have hnone : page.next_cursor = Option.none := by
        simpa [terminates_on_last, Option.isNone_iff_eq_none] using hterm
      rw [fetch_tickets_loop_step_none conn start_time htok page [] hnone sa cur
        yielded doc_batch]
      refine ⟨?_, rfl⟩
      by_cases hempty :
          (process_page_tickets conn start_time page.conversations yielded doc_batch).2.isEmpty
      · have hnil :
            (process_page_tickets conn start_time page.conversations yielded doc_batch).2
              = [] := List.isEmpty_iff.mp hempty
        simp only [hempty, if_true]
        have h2 := hpp
        rw [hnil, List.append_nil] at h2
        simpa using h2
      · have hempty' :
            (process_page_tickets conn start_time page.conversations yielded doc_batch).2.isEmpty
              = false := by
          cases h : (process_page_tickets conn start_time page.conversations
              yielded doc_batch).2.isEmpty
          · rfl
          · exact absurd h hempty
        simp only [hempty', Bool.false_eq_true, if_false]
        rw [List.flatten_append]
        simpa using hpp
    | cons page2 rest2 =>
      have hboth : page.next_cursor.isSome = true
          ∧ terminates_on_last (page2 :: rest2) = true := by
        have h := hterm
        simp only [terminates_on_last, Bool.and_eq_true] at h
        exact h
      obtain ⟨c, hc⟩ := Option.isSome_iff_exists.mp hboth.1
      rw [fetch_tickets_loop_step_some conn start_time htok page (page2 :: rest2) c hc
        sa cur yielded doc_batch]
      have ihr := ih (Option.some c) (Option.some c)
        (process_page_tickets conn start_time page.conversations yielded doc_batch).1
        (process_page_tickets conn start_time page.conversations yielded doc_batch).2
        hboth.2
      refine ⟨?_, ihr.2⟩
      rw [ihr.1, hpp]
      simp [List.append_assoc, List.filter_append]

theorem fetch_tickets_loop_shape (conn : IntercomConnector) (start_time : Option Int)
    (htok : token_truthy conn = true) (hbs : 0 < conn.batch_size) (pages : List Page) :
    ∀ (starting_after tickets_cursor : Option String)
      (yielded : List (List Document)) (doc_batch : List Document),
      terminates_on_last pages = true →
      (∀ b ∈ yielded, b ≠ [] ∧ b.length ≤ conn.batch_size) →
      doc_batch.length < conn.batch_size →
      ∀ b ∈ (fetch_tickets_loop conn start_time pages starting_after tickets_cursor
          yielded doc_batch).1, b ≠ [] ∧ b.length ≤ conn.batch_size := by
  induction pages with
  | nil =>
    intro sa cur yielded doc_batch hterm
    simp [terminates_on_last] at hterm
  | cons page rest ih =>
    intro sa cur yielded doc_batch hterm hy hb
    have hpp := process_page_tickets_shape conn start_time hbs page.conversations
      yielded doc_batch hy hb
    cases rest with
    | nil =>
      have hnone : page.next_cursor = Option.none := by
        simpa [terminates_on_last, Option.isNone_iff_eq_none] using hterm
      rw [fetch_tickets_loop_step_none conn start_time htok page [] hnone sa cur
        yielded doc_batch]
      by_cases hempty :
        (process_page_tickets conn start_time page.conversations yielded doc_batch).2.isEmpty
      · simp only [hempty, if_true]
        exact hpp.1
      · have hempty' :
            (process_page_tickets conn start_time page.conversations yielded doc_batch).2.isEmpty
              = false := by
          cases h : (process_page_tickets conn start_time page.conversations
              yielded doc_batch).2.isEmpty
          · rfl
          · exact absurd h hempty
        simp only [hempty', Bool.false_eq_true, if_false]
        intro b hbmem
        rcases List.mem_append.mp hbmem with hmem | hmem
        · exact hpp.1 b hmem
        · have hbq :
              b = (process_page_tickets conn start_time page.conversations yielded doc_batch).2 := by
            simpa using hmem
          subst hbq
          constructor
          · intro hcontra
            rw [hcontra] at hempty
            simp at hempty
          · exact Nat.le_of_lt hpp.2
    | cons page2 rest2 =>
      have hboth : page.next_cursor.isSome = true
          ∧ terminates_on_last (page2 :: rest2) = true := by
        have h := hterm
        simp only [terminates_on_last, Bool.and_eq_true] at h
        exact h
      obtain ⟨c, hc⟩ := Option.isSome_iff_exists.mp hboth.1
      rw [fetch_tickets_loop_step_some conn start_time htok page (page2 :: rest2) c hc
        sa cur yielded doc_batch]
      exact ih (Option.some c) (Option.some c) _ _ hboth.2 hpp.1 hpp.2

theorem fetch_tickets_loop_cursor (conn : IntercomConnector) (start_time : Option Int)
    (htok : token_truthy conn = true) (pages : List Page) :
    ∀ (starting_after tickets_cursor : Option String)
      (yielded : List (List Document)) (doc_batch : List Document),
      terminates_on_last pages = true →
      (fetch_tickets_loop conn start_time pages starting_after tickets_cursor
          yielded doc_batch).2.1
        = pages.foldl update_cursor tickets_cursor := by
  induction pages with
  | nil =>
    intro sa cur yielded doc_batch hterm
    simp [terminates_on_last] at hterm
  | cons page rest ih =>
    intro sa cur yielded doc_batch hterm
    cases rest with
    | nil =>
      have hnone : page.next_cursor = Option.none := by
        simpa [terminates_on_last, Option.isNone_iff_eq_none] using hterm
      rw [fetch_tickets_loop_step_none conn start_time htok page [] hnone sa cur
        yielded doc_batch]
      simp [update_cursor, hnone]
    | cons page2 rest2 =>
      have hboth : page.next_cursor.isSome = true
          ∧ terminates_on_last (page2 :: rest2) = true := by
        have h := hterm
        simp only [terminates_on_last, Bool.and_eq_true] at h
        exact h
      obtain ⟨c, hc⟩ := Option.isSome_iff_exists.mp hboth.1
      rw [fetch_tickets_loop_step_some conn start_time htok page (page2 :: rest2) c hc
        sa cur yielded doc_batch]
      rw [ih (Option.some c) (Option.some c) _ _ hboth.2]
      simp [update_cursor, hc]

theorem terminates_foldl_dropLast (pages : List Page) :
    ∀ (cur : Option String), terminates_on_last pages = true →
      pages.foldl update_cursor cur = pages.dropLast.foldl update_cursor cur := by
  induction pages with
  | nil =>
    intro cur hterm
    simp [terminates_on_last] at hterm
  | cons page rest ih =>
    intro cur hterm
    cases rest with
    | nil =>
      have hnone : page.next_cursor = Option.none := by
        simpa [terminates_on_last, Option.isNone_iff_eq_none] using hterm
      simp [update_cursor, hnone]
    | cons page2 rest2 =>
      have hboth : page.next_cursor.isSome = true
          ∧ terminates_on_last (page2 :: rest2) = true := by
        have h := hterm
        simp only [terminates_on_last, Bool.and_eq_true] at h
        exact h
      simp only [List.foldl_cons, List.dropLast_cons₂]
      exact ih (update_cursor cur page) hboth.2

theorem fetch_tickets_loop_filter (conn : IntercomConnector) (s : Int) (pages : List Page) :
    ∀ (starting_after tickets_cursor : Option String)
      (yielded : List (List Document)) (doc_batch : List Document),
      fetch_tickets_loop conn (Option.some s)
          (pages.map (fun p =>
            { p with conversations :=
                p.conversations.filter (keep_ticket (Option.some s)) }))
          starting_after tickets_cursor yielded doc_batch
        = fetch_tickets_loop conn (Option.some s) pages
            starting_after tickets_cursor yielded doc_batch := by
  induction pages with
  | nil =>
    intro sa cur yielded doc_batch
    simp
  | cons page rest ih =>
    intro sa cur yielded doc_batch
    by_cases htok : token_truthy conn = true
    · cases hc : page.next_cursor with
      | some c =>
        rw [List.map_cons,
          fetch_tickets_loop_step_some conn (Option.some s) htok _ _ c (by simpa using hc)
            sa cur yielded doc_batch,
          fetch_tickets_loop_step_some conn (Option.some s) htok page rest c hc
            sa cur yielded doc_batch]
        simp only [process_page_tickets_filter]
        exact ih (Option.some c) (Option.some c) _ _
      | none =>
        rw [List.map_cons,
          fetch_tickets_loop_step_none conn (Option.some s) htok _ _ (by simpa using hc)
            sa cur yielded doc_batch,
          fetch_tickets_loop_step_none conn (Option.some s) htok page rest hc
            sa cur yielded doc_batch]
        simp only [process_page_tickets_filter]
    · have htok' : token_truthy conn = false := by
        cases h : token_truthy conn
        · rfl
        · exact absurd h htok
      rw [fetch_tickets_loop_no_token conn (Option.some s) htok',
        fetch_tickets_loop_no_token conn (Option.some s) htok']

/-! ## Lemmas about the sections list -/

theorem append_section_eq (sections : List TextSection) (body : Option String) :
    append_section sections body = sections ++ (section_of_body body).toList := by
  cases body with
  | none => simp [append_section, section_of_body]
  | some b =>
    simp only [append_section, section_of_body]
    by_cases hb : (b != "") = true
    · simp only [hb, if_true]
      by_cases hc : (parse_html_page_basic b != "") = true
      · simp [hc]
      · have hc' : (parse_html_page_basic b != "") = false := by
          cases h : (parse_html_page_basic b != "")
          · rfl
          · exact absurd h hc
        simp [hc']
    · have hb' : (b != "") = false := by
        cases h : (b != "")
        · rfl
        · exact absurd h hb
      simp [hb']

theorem foldl_append_section (parts : List ConversationPart) :
    ∀ (init : List TextSection),
      parts.foldl (fun secs part => append_section secs part.body) init
        = init ++ (parts.map (fun p => p.body)).filterMap section_of_body := by
  induction parts with
  | nil =>
    intro init
    simp
  | cons p rest ih =>
    intro init
    rw [List.foldl_cons, ih, append_section_eq]
    cases h : section_of_body p.body <;> simp [List.filterMap_cons, h]

/-! ## Concrete sample data -/

/-- A small concrete conversation record used by the concrete examples. -/
def sample_ticket (i : String) (upd : Int) : Ticket :=
  { id := i,
    title := Option.some ("Ticket " ++ i),
    state := Option.some "open",
    admin_assignee_id := Option.some 7843941,
    team_assignee_id := Option.none,
    tags := [],
    priority := Option.none,
    created_at := 10,
    updated_at := upd,
    source := { type := Option.some "conversation",
                body := Option.some ("Hello " ++ i),
                author := Option.none },
    conversation_parts := [] }

/-- Connector used for the concrete C7 example (token loaded, batch bound ten,
no workspace identifier so link generation degrades to no link). -/
def c7_conn : IntercomConnector :=
  { batch_size := 10, intercom_api_token := Option.some "api-token",
    workspace_id := PyVal.none }

/-- Fresh checkpoint for the concrete examples. -/
def c7_checkpoint : IntercomConnectorCheckpoint :=
  { has_more := true, tickets_cursor := Option.none }

/-- Item A of the two-page example (updated at one hundred). -/
def c7_ticket_A : Ticket := sample_ticket "A" 100

/-- Item B of the two-page example (updated at fifty, filtered out). -/
def c7_ticket_B : Ticket := sample_ticket "B" 50

/-- Item C of the two-page example (updated at two hundred). -/
def c7_ticket_C : Ticket := sample_ticket "C" 200

/-- The two pages of the C7 example: page one holds A and B and a next
cursor, page two holds C and no next cursor. -/
def c7_pages : List Page :=
  [{ conversations := [c7_ticket_A, c7_ticket_B], next_cursor := Option.some "p2" },
   { conversations := [c7_ticket_C], next_cursor := Option.none }]

/-! ## Claim theorems -/

/-- C1: the claim states that load_from_checkpoint yields the document
batches of the paginated fetch and returns the final checkpoint without
raising.  The source file defines the method twice; the second definition
overrides the first and raises NotImplementedError unconditionally, so the
effective load_from_checkpoint raises for every start, end and checkpoint. -/
theorem load_from_checkpoint_always_raises (conn : IntercomConnector)
    (start end_ : Int) (checkpoint : IntercomConnectorCheckpoint) :
    conn.load_from_checkpoint start end_ checkpoint
      = Except.error PyError.notImplemented := rfl

/-- C7: on the concrete two-page input (A updated at one hundred and B
updated at fifty on page one with next cursor p2, C updated at two hundred
on page two with no next cursor, bound seventy-five, batch bound ten) the
fetch emits exactly one batch holding the documents for A and C in that
order, and the run ends without raising. -/
theorem example_two_pages_one_batch :
    (fetch_tickets c7_conn c7_checkpoint (Option.some 75) c7_pages).1
        = [[c7_conn.ticket_to_document c7_ticket_A,
            c7_conn.ticket_to_document c7_ticket_C]]
    ∧ (fetch_tickets c7_conn c7_checkpoint (Option.some 75) c7_pages).2.2
        = Except.ok () := by
  constructor
  · rfl
  · rfl

/-- Ticket whose source message has no body but which has one follow-up
part with a body; it refutes the one-section-per-message-part reading. -/
def c9_ticket : Ticket :=
  { id := "no-body",
    title := Option.none,
    state := Option.none,
    admin_assignee_id := Option.none,
    team_assignee_id := Option.none,
    tags := [],
    priority := Option.none,
    created_at := 0,
    updated_at := 0,
    source := { type := Option.none, body := Option.none, author := Option.none },
    conversation_parts := [{ body := Option.some "A follow-up reply" }] }

/-- Connector used by the C9 counterexample. -/
def c9_conn : IntercomConnector :=
  { batch_size := 16, intercom_api_token := Option.none, workspace_id := PyVal.none }

/-- C9 counterexample: the claim says the document carries one ordered text
section per message part (source message plus follow-up parts).  For a
ticket whose source message has no body and which has one follow-up part,
the document has one section while the claim demands two. -/
theorem sections_not_one_per_part :
    ((c9_conn.ticket_to_document c9_ticket).sections).length
      ≠ c9_ticket.conversation_parts.length + 1 := by decide

/-- C9 (amended): the document carries one ordered text section per message
part whose body is present, non-empty and cleans to non-empty text, with the
source message section first and the follow-up part sections following in
their original order. -/
theorem sections_in_order_nonempty_bodies (conn : IntercomConnector) (ticket : Ticket) :
    (conn.ticket_to_document ticket).sections
      = (ticket.source.body :: ticket.conversation_parts.map (fun p => p.body)).filterMap
          section_of_body := by
  simp only [IntercomConnector.ticket_to_document]
  rw [foldl_append_section, append_section_eq]
  cases h : section_of_body ticket.source.body <;> simp [List.filterMap_cons, h]

/-- C10: the permission-sync slim-document listing yields the empty
sequence for every combination of start, end and callback arguments. -/
theorem slim_docs_always_empty (conn : IntercomConnector) (start end_ : Option Int)
    (callback : Option IndexingHeartbeatInterface) :
    retrieve_all_slim_docs_perm_sync conn start end_ callback = [] := rfl

/-- C2: for every terminating page sequence, a loaded token and a positive
batch bound, the fetch emits exactly the items whose update time passes the
bound (all items when no bound is set), in discovery order, partitioned into
non-empty batches of size at most batch_size with the last batch possibly
smaller, and the total emitted count equals the count of non-filtered
items (no item duplicated or dropped). -/
theorem fetch_tickets_partitions (conn : IntercomConnector)
    (checkpoint : IntercomConnectorCheckpoint) (start_time : Option Int)
    (pages : List Page) (htok : token_truthy conn = true)
    (hterm : terminates_on_last pages = true) (hbs : 0 < conn.batch_size) :
    ((fetch_tickets conn checkpoint start_time pages).1).flatten
        = (((pages.map Page.conversations).flatten).filter (keep_ticket start_time)).map
            conn.ticket_to_document
    ∧ (∀ b ∈ (fetch_tickets conn checkpoint start_time pages).1,
        b ≠ [] ∧ b.length ≤ conn.batch_size)
    ∧ (((fetch_tickets conn checkpoint start_time pages).1).map List.length).sum
        = (((pages.map Page.conversations).flatten).filter (keep_ticket start_time)).length := by
  have hf := fetch_tickets_loop_flatten conn start_time htok pages
    checkpoint.tickets_cursor checkpoint.tickets_cursor [] [] hterm
  have hs := fetch_tickets_loop_shape conn start_time htok hbs pages
    checkpoint.tickets_cursor checkpoint.tickets_cursor [] [] hterm
    (by intro b hb; simp at hb) hbs
  have hflat : ((fetch_tickets conn checkpoint start_time pages).1).flatten
      = (((pages.map Page.conversations).flatten).filter (keep_ticket start_time)).map
          conn.ticket_to_document := by
    simpa [fetch_tickets] using hf.1
  refine ⟨hflat, ?_, ?_⟩
  · intro b hb
    exact hs b (by simpa [fetch_tickets] using hb)
  · calc (((fetch_tickets conn checkpoint start_time pages).1).map List.length).sum
        = ((fetch_tickets conn checkpoint start_time pages).1).flatten.length :=
          (List.length_flatten _).symm
      _ = ((((pages.map Page.conversations).flatten).filter (keep_ticket start_time)).map
            conn.ticket_to_document).length := by rw [hflat]
      _ = (((pages.map Page.conversations).flatten).filter (keep_ticket start_time)).length :=
          List.length_map _ _

/-- Connector used by the C2 and C3 witnesses (batch bound two). -/
def w2_conn : IntercomConnector :=
  { batch_size := 2, intercom_api_token := Option.some "token-w2",
    workspace_id := PyVal.none }

/-- Checkpoint used by the C2 and C3 witnesses. -/
def w2_checkpoint : IntercomConnectorCheckpoint :=
  { has_more := true, tickets_cursor := Option.none }

/-- Terminating two-page listing used by the C2 and C3 witnesses: three
items on page one (one below the bound of fifty) and one on page two. -/
def w2_pages : List Page :=
  [{ conversations := [sample_ticket "t1" 100, sample_ticket "t2" 40,
        sample_ticket "t3" 120],
     next_cursor := Option.some "cursor-2" },
   { conversations := [sample_ticket "t4" 90], next_cursor := Option.none }]

/-- Witness for C2 at a concrete terminating two-page listing. -/
theorem fetch_tickets_partitions_witness :
    token_truthy w2_conn = true ∧ terminates_on_last w2_pages = true
    ∧ 0 < w2_conn.batch_size
    ∧ (((fetch_tickets w2_conn w2_checkpoint (Option.some 50) w2_pages).1).flatten
          = (((w2_pages.map Page.conversations).flatten).filter
                (keep_ticket (Option.some 50))).map w2_conn.ticket_to_document
        ∧ (∀ b ∈ (fetch_tickets w2_conn w2_checkpoint (Option.some 50) w2_pages).1,
            b ≠ [] ∧ b.length ≤ w2_conn.batch_size)
        ∧ (((fetch_tickets w2_conn w2_checkpoint (Option.some 50) w2_pages).1).map
              List.length).sum
            = (((w2_pages.map Page.conversations).flatten).filter
                  (keep_ticket (Option.some 50))).length) :=
  ⟨by decide, by decide, by decide,
    fetch_tickets_partitions w2_conn w2_checkpoint (Option.some 50) w2_pages
      (by decide) (by decide) (by decide)⟩

/-- C3: for every terminating page sequence with a loaded token, the
returned checkpoint cursor is the fold of the per-page update (set to the
next-cursor token when one is present, retained otherwise) over the pages;
because the final page carries no next-cursor, it equals the same fold over
all pages but the last, i.e. the token persisted after the last page that
carried one; and the loop exits normally. -/
theorem fetch_tickets_checkpoint_cursor (conn : IntercomConnector)
    (checkpoint : IntercomConnectorCheckpoint) (start_time : Option Int)
    (pages : List Page) (htok : token_truthy conn = true)
    (hterm : terminates_on_last pages = true) :
    (fetch_tickets conn checkpoint start_time pages).2.1.tickets_cursor
        = pages.foldl update_cursor checkpoint.tickets_cursor
    ∧ (fetch_tickets conn checkpoint start_time pages).2.1.tickets_cursor
        = pages.dropLast.foldl update_cursor checkpoint.tickets_cursor
    ∧ (fetch_tickets conn checkpoint start_time pages).2.2 = Except.ok () := by
  have hc := fetch_tickets_loop_cursor conn start_time htok pages
    checkpoint.tickets_cursor checkpoint.tickets_cursor [] [] hterm
  have hf := fetch_tickets_loop_flatten conn start_time htok pages
    checkpoint.tickets_cursor checkpoint.tickets_cursor [] [] hterm
  have h1 : (fetch_tickets conn checkpoint start_time pages).2.1.tickets_cursor
      = pages.foldl update_cursor checkpoint.tickets_cursor := by
    simpa [fetch_tickets] using hc
  refine ⟨h1, ?_, ?_⟩
  · exact h1.trans (terminates_foldl_dropLast pages checkpoint.tickets_cursor hterm)
  · simpa [fetch_tickets] using hf.2

/-- Witness for C3 at the same concrete terminating two-page listing. -/
theorem fetch_tickets_checkpoint_cursor_witness :
    token_truthy w2_conn = true ∧ terminates_on_last w2_pages = true
    ∧ ((fetch_tickets w2_conn w2_checkpoint (Option.some 50) w2_pages).2.1.tickets_cursor
          = w2_pages.foldl update_cursor w2_checkpoint.tickets_cursor
        ∧ (fetch_tickets w2_conn w2_checkpoint (Option.some 50) w2_pages).2.1.tickets_cursor
            = w2_pages.dropLast.foldl update_cursor w2_checkpoint.tickets_cursor
        ∧ (fetch_tickets w2_conn w2_checkpoint (Option.some 50) w2_pages).2.2
            = Except.ok ()) :=
  ⟨by decide, by decide,
    fetch_tickets_checkpoint_cursor w2_conn w2_checkpoint (Option.some 50) w2_pages
      (by decide) (by decide)⟩

/-- Credentials mapping with a valid token but no workspace identifier. -/
def c4_credentials : List (String × PyVal) :=
  [("intercom_api_token", PyVal.str "valid-token")]

/-- C4 counterexample: the claim says that when the workspace identifier is
absent, loading credentials still succeeds.  On a mapping holding a valid
token but no workspace identifier, load_credentials raises the workspace
configuration error instead of succeeding. -/
theorem load_credentials_workspace_absent_raises :
    ((IntercomConnector.init 16 Option.none).load_credentials c4_credentials).2
      = Except.error (PyError.connectorMissingCredential
          "Missing or invalid workspace_id for Intercom connector.") := rfl

/-- C4 (amended): the workspace identifier is required at credential-loading
time: load_credentials raises a configuration error when the credentials
carry a valid token but a falsy workspace identifier; link generation itself
degrades rather than failing, since get_source_link returns no link whenever
the connector's workspace identifier is unset. -/
theorem workspace_required_and_link_degrades (conn : IntercomConnector)
    (credentials : List (String × PyVal))
    (htok : truthy (dict_get credentials "intercom_api_token") = true)
    (hstr : is_str (dict_get credentials "intercom_api_token") = true)
    (hws : truthy (dict_get credentials "workspace_id") = false) :
    (conn.load_credentials credentials).2
        = Except.error (PyError.connectorMissingCredential
            "Missing or invalid workspace_id for Intercom connector.")
    ∧ ∀ (conn2 : IntercomConnector) (doc_id : String),
        truthy conn2.workspace_id = false →
        conn2.get_source_link doc_id = Option.none := by
  constructor
  · simp [IntercomConnector.load_credentials, htok, hstr, hws]
  · intro conn2 doc_id hws2
    simp [IntercomConnector.get_source_link, hws2]

/-- Witness for C4 (amended) at the token-only credentials mapping. -/
theorem workspace_required_and_link_degrades_witness :
    truthy (dict_get c4_credentials "intercom_api_token") = true
    ∧ is_str (dict_get c4_credentials "intercom_api_token") = true
    ∧ truthy (dict_get c4_credentials "workspace_id") = false
    ∧ ((IntercomConnector.init 16 Option.none).load_credentials c4_credentials).2
        = Except.error (PyError.connectorMissingCredential
            "Missing or invalid workspace_id for Intercom connector.")
    ∧ (IntercomConnector.init 16 Option.none).get_source_link "INTERCOM_X"
        = Option.none :=
  ⟨by decide, by decide, by decide,
    (workspace_required_and_link_degrades (IntercomConnector.init 16 Option.none)
      c4_credentials (by decide) (by decide) (by decide)).1,
    (workspace_required_and_link_degrades (IntercomConnector.init 16 Option.none)
      c4_credentials (by decide) (by decide) (by decide)).2
      (IntercomConnector.init 16 Option.none) "INTERCOM_X" (by decide)⟩

/-- C5: for every credentials mapping whose token entry is falsy or not a
string, load_credentials raises the token configuration error leaving the
connector unchanged; and on a connector whose token was never loaded, the
page request itself fails before consulting the provider (the result is the
same error for every provider), and the fetch produces no batches for every
page sequence. -/
theorem missing_token_fails_fast (conn : IntercomConnector)
    (credentials : List (String × PyVal))
    (hbad : (truthy (dict_get credentials "intercom_api_token")
        && is_str (dict_get credentials "intercom_api_token")) = false)
    (hfresh : conn.intercom_api_token = Option.none) :
    (conn.load_credentials credentials).1 = conn
    ∧ (conn.load_credentials credentials).2
        = Except.error (PyError.connectorMissingCredential
            "Missing or invalid intercom_api_token for Intercom connector.")
    ∧ (∀ (provider : Option String → Page) (starting_after : Option String),
        get_tickets conn provider starting_after
          = Except.error (PyError.connectorMissingCredential
              "Intercom API token is not loaded."))
    ∧ (∀ (checkpoint : IntercomConnectorCheckpoint) (start_time : Option Int)
          (pages : List Page),
        (fetch_tickets conn checkpoint start_time pages).1 = []
        ∧ (fetch_tickets conn checkpoint start_time pages).2.2
            = Except.error (PyError.connectorMissingCredential
                "Intercom API token is not loaded.")) := by
  have hguard : (!truthy (dict_get credentials "intercom_api_token")
      || !is_str (dict_get credentials "intercom_api_token")) = true := by
    cases h1 : truthy (dict_get credentials "intercom_api_token") <;>
      cases h2 : is_str (dict_get credentials "intercom_api_token") <;>
      simp_all
  have htokf : token_truthy conn = false := by
    simp [token_truthy, hfresh]
  refine ⟨?_, ?_, ?_, ?_⟩
  · simp [IntercomConnector.load_credentials, hguard]
  · simp [IntercomConnector.load_credentials, hguard]
  · intro provider starting_after
    simp [get_tickets, htokf]
  · intro checkpoint start_time pages
    have hnt := fetch_tickets_loop_no_token conn start_time htokf pages
      checkpoint.tickets_cursor checkpoint.tickets_cursor [] []
    constructor
    · simp [fetch_tickets, hnt]
    · simp [fetch_tickets, hnt]

/-- Credentials mapping with no token entry at all. -/
def w5_credentials : List (String × PyVal) :=
  [("workspace_id", PyVal.str "workspace-w5")]

/-- Fresh connector (token never loaded) for the C5 witness. -/
def w5_conn : IntercomConnector := IntercomConnector.init 16 Option.none

/-- Provider returning an empty final page, for the C5 witness. -/
def w5_provider : Option String → Page :=
  fun _ => { conversations := [], next_cursor := Option.none }

/-- Witness for C5 at a credentials mapping missing the token. -/
theorem missing_token_fails_fast_witness :
    (truthy (dict_get w5_credentials "intercom_api_token")
        && is_str (dict_get w5_credentials "intercom_api_token")) = false
    ∧ w5_conn.intercom_api_token = Option.none
    ∧ (w5_conn.load_credentials w5_credentials).1 = w5_conn
    ∧ (w5_conn.load_credentials w5_credentials).2
        = Except.error (PyError.connectorMissingCredential
            "Missing or invalid intercom_api_token for Intercom connector.")
    ∧ get_tickets w5_conn w5_provider Option.none
        = Except.error (PyError.connectorMissingCredential
            "Intercom API token is not loaded.")
    ∧ (fetch_tickets w5_conn c7_checkpoint Option.none []).1 = [] :=
  ⟨by decide, rfl,
    (missing_token_fails_fast w5_conn w5_credentials (by decide) rfl).1,
    (missing_token_fails_fast w5_conn w5_credentials (by decide) rfl).2.1,
    (missing_token_fails_fast w5_conn w5_credentials (by decide) rfl).2.2.1
      w5_provider Option.none,
    ((missing_token_fails_fast w5_conn w5_credentials (by decide) rfl).2.2.2
      c7_checkpoint Option.none []).1⟩

/-- C6: when a time bound is set, items whose update time is strictly below
the bound are skipped without being transformed or counted, and scanning
continues over the rest of the page and all later pages: running the loop on
the pages with those items pre-removed (keeping exactly the items whose
update time reaches the bound) yields the identical result, for every cursor
state, accumulator and batch. -/
theorem time_bound_skips_and_continues (conn : IntercomConnector) (s : Int)
    (pages : List Page) (starting_after tickets_cursor : Option String)
    (yielded : List (List Document)) (doc_batch : List Document) :
    fetch_tickets_loop conn (Option.some s)
        (pages.map (fun p =>
          { p with conversations :=
              p.conversations.filter (fun t => decide (s ≤ t.updated_at)) }))
        starting_after tickets_cursor yielded doc_batch
      = fetch_tickets_loop conn (Option.some s) pages
          starting_after tickets_cursor yielded doc_batch := by
  have hk : (fun t : Ticket => decide (s ≤ t.updated_at))
      = keep_ticket (Option.some s) := by
    funext t
    simp only [keep_ticket]
    rw [decide_eq_decide]
    exact Int.not_lt.symm
  rw [hk]
  exact fetch_tickets_loop_filter conn s pages starting_after tickets_cursor
    yielded doc_batch

/-- C8: in every document built from a ticket, any metadata value stored
under the assignee identifier keys is a string (raw numbers are stringified
and absent identifiers are dropped), and no surviving metadata entry holds
None or the empty list. -/
theorem metadata_values_clean (conn : IntercomConnector) (ticket : Ticket) :
    (∀ v : PyVal,
        ("assignee_id", v) ∈ (conn.ticket_to_document ticket).metadata →
        ∃ s, v = PyVal.str s)
    ∧ (∀ v : PyVal,
        ("team_assignee_id", v) ∈ (conn.ticket_to_document ticket).metadata →
        ∃ s, v = PyVal.str s)
    ∧ (∀ kv ∈ (conn.ticket_to_document ticket).metadata,
        kv.2 ≠ PyVal.none ∧ kv.2 ≠ PyVal.list []) := by
  refine ⟨?_, ?_, ?_⟩
  · intro v hv
    simp only [IntercomConnector.ticket_to_document, List.mem_filter] at hv
    obtain ⟨hmem, hpred⟩ := hv
    simp only [List.mem_cons, List.not_mem_nil, or_false, Prod.mk.injEq] at hmem
    rcases hmem with ⟨hk, _⟩ | ⟨hk, _⟩ | ⟨_, hv'⟩ | ⟨hk, _⟩ | ⟨hk, _⟩ | ⟨hk, _⟩ | ⟨hk, _⟩
    · exact absurd hk (by decide)
    · exact absurd hk (by decide)
    · cases hid : ticket.admin_assignee_id with
      | some n =>
        refine ⟨toString n, ?_⟩
        rw [hv', hid]
        rfl
      | none =>
        rw [hv', hid] at hpred
        simp [stringify_id] at hpred
    · exact absurd hk (by decide)
    · exact absurd hk (by decide)
    · exact absurd hk (by decide)
    · exact absurd hk (by decide)
  · intro v hv
    simp only [IntercomConnector.ticket_to_document, List.mem_filter] at hv
    obtain ⟨hmem, hpred⟩ := hv
    simp only [List.mem_cons, List.not_mem_nil, or_false, Prod.mk.injEq] at hmem
    rcases hmem with ⟨hk, _⟩ | ⟨hk, _⟩ | ⟨hk, _⟩ | ⟨_, hv'⟩ | ⟨hk, _⟩ | ⟨hk, _⟩ | ⟨hk, _⟩
    · exact absurd hk (by decide)
    · exact absurd hk (by decide)
    · exact absurd hk (by decide)
    · cases hid : ticket.team_assignee_id with
      | some n =>
        refine ⟨toString n, ?_⟩
        rw [hv', hid]
        rfl
      | none =>
        rw [hv', hid] at hpred
        simp [stringify_id] at hpred
    · exact absurd hk (by decide)
    · exact absurd hk (by decide)
    · exact absurd hk (by decide)
  · intro kv hkv
    simp only [IntercomConnector.ticket_to_document] at hkv
    have hpred := List.of_mem_filter hkv
    simp only [Bool.and_eq_true, Bool.not_eq_true', beq_eq_false_iff_ne] at hpred
    exact hpred

/-- Ticket carrying the numeric assignee identifiers of the spec example. -/
def w8_ticket : Ticket :=
  { id := "X1",
    title := Option.none,
    state := Option.none,
    admin_assignee_id := Option.some 7843941,
    team_assignee_id := Option.some 5,
    tags := [],
    priority := Option.none,
    created_at := 3,
    updated_at := 4,
    source := { type := Option.none, body := Option.none, author := Option.none },
    conversation_parts := [] }

/-- Connector used by the C8 witness. -/
def w8_conn : IntercomConnector :=
  { batch_size := 16, intercom_api_token := Option.none, workspace_id := PyVal.none }

/-- Witness for C8 at a ticket whose assignee identifier is the number
7843941: the stored metadata values are the strings of the identifiers. -/
theorem metadata_values_clean_witness :
    (∃ s, PyVal.str "7843941" = PyVal.str s)
    ∧ (∃ s, PyVal.str "5" = PyVal.str s)
    ∧ (PyVal.str "7843941" ≠ PyVal.none ∧ PyVal.str "7843941" ≠ PyVal.list []) :=
  ⟨(metadata_values_clean w8_conn w8_ticket).1 (PyVal.str "7843941") (by decide),
    (metadata_values_clean w8_conn w8_ticket).2.1 (PyVal.str "5") (by decide),
    (metadata_values_clean w8_conn w8_ticket).2.2
      ("assignee_id", PyVal.str "7843941") (by decide)⟩
